import Mathlib

/-!
Shallow embedding of the Trivia backend: the Flask route module
`backend/flaskr/__init__.py` and the pagination helper
`backend/decorators/paginate.py`, together with proofs about the
request/response contracts of the endpoints.

The data-access layer (`models.py`) is not part of the route module; following
the specification it is treated as an external collaborator providing
ordered-by-id retrieval, filter-by-predicate retrieval, insert-returning-id and
delete-by-id over the two tables.
-/

namespace Trivia

/-- A category row: `{id: integer, type: string}`. -/
structure Category where
  id : Nat
  type : String
  deriving DecidableEq, Repr

/-- A question row: `{id, question, answer, category, difficulty}`. -/
structure Question where
  id : Nat
  question : String
  answer : String
  category : Nat
  difficulty : Nat
  deriving DecidableEq, Repr

/-- JSON values, as produced by `jsonify`. -/
inductive JVal where
  | jNull
  | jBool (b : Bool)
  | jNum (n : Int)
  | jStr (s : String)
  | jArr (elems : List JVal)
  | jObj (fields : List (String × JVal))

/-- Look up a top-level field of a JSON object. -/
def JVal.getField : JVal → String → Option JVal
  | .jObj fs, k => fs.lookup k
  | _, _ => none

/-- Modelled from the spec: `Category.format` from the data-access layer
(`models.py` is not part of the route module); the data model section gives the
shape `{id: integer, type: string}`. -/
def Category.format (c : Category) : JVal :=
  .jObj [("id", .jNum c.id), ("type", .jStr c.type)]

/-- Modelled from the spec: `Question.format` from the data-access layer; the
data model section gives the shape
`{id, question, answer, category, difficulty}`. -/
def Question.format (q : Question) : JVal :=
  .jObj [("id", .jNum q.id), ("question", .jStr q.question),
         ("answer", .jStr q.answer), ("category", .jNum q.category),
         ("difficulty", .jNum q.difficulty)]

/-- The relational store: the two tables, plus the next question id the store
will assign. -/
structure Store where
  categories : List Category
  questions : List Question
  nextId : Nat
  deriving Repr

/-- The spec's store invariant: question ids are unique and monotonically
assigned (every stored id is below the next one to be assigned). -/
def Store.WF (s : Store) : Prop :=
  (s.questions.map Question.id).Nodup ∧ ∀ q ∈ s.questions, q.id < s.nextId

/-- Modelled from the spec: `Category.query.order_by(Category.id).all()` —
ordered-by-id retrieval from the data-access layer. -/
def Store.categoriesById (s : Store) : List Category :=
  List.insertionSort (fun a b => a.id ≤ b.id) s.categories

/-- Modelled from the spec: `Question.query.order_by(Question.id).all()` —
ordered-by-id retrieval from the data-access layer. -/
def Store.questionsById (s : Store) : List Question :=
  List.insertionSort (fun a b => a.id ≤ b.id) s.questions

/-- Modelled from the spec: `Question.query.filter(...).all()` —
filter-by-predicate retrieval, in store order. -/
def Store.filterQuestions (s : Store) (p : Question → Bool) : List Question :=
  s.questions.filter p

/-- Modelled from the spec: `Question(...).insert()` — insert-returning-id; the
store assigns the new row the next id. -/
def Store.insertQuestion (s : Store) (question answer : String)
    (category difficulty : Nat) : Store × Nat :=
  let q : Question := ⟨s.nextId, question, answer, category, difficulty⟩
  ({ s with questions := s.questions ++ [q], nextId := s.nextId + 1 }, s.nextId)

/-- Modelled from the spec: `question.delete()` — delete-by-id removes that
single row. -/
def Store.deleteQuestion (s : Store) (qid : Nat) : Store :=
  { s with questions := s.questions.eraseP (fun q => q.id == qid) }

/-- The data-access layer method `one_or_none`: `none` for an empty result set,
the row for a singleton, and a raised exception (`error`) when several rows
match. -/
def one_or_none {α : Type} : List α → Except Unit (Option α)
  | [] => .ok none
  | [a] => .ok (some a)
  | _ => .error ()

/-- An HTTP response: status code and JSON body. -/
structure HttpResponse where
  status : Nat
  body : JVal

/-- Messages of the three registered error handlers (`404`, `422`, `400`). -/
def errorMessage : Nat → String
  | 404 => "resource not found"
  | 422 => "unprocessable"
  | 400 => "bad request"
  | _ => ""

/-- The JSON error envelope produced by the registered error handlers. -/
def errorResponse (code : Nat) : HttpResponse :=
  ⟨code, .jObj [("success", .jBool false), ("error", .jNum code),
                ("message", .jStr (errorMessage code))]⟩

/-- A `200` response with the given JSON object body. -/
def okResponse (fields : List (String × JVal)) : HttpResponse :=
  ⟨200, .jObj fields⟩

/-! ### `backend/decorators/paginate.py` -/

def ITEMS_PER_PAGE : Nat := 10

/-- Resolve one endpoint of a Python slice `l[start:stop]` against a list of
length `len`: a negative index counts from the end, and both endpoints are
clamped to `[0, len]`. -/
def pyIdx (len : Nat) (i : Int) : Nat :=
  if i < 0 then (max (i + len) 0).toNat else min i.toNat len

/-- Python list slicing `l[start:stop]` (step 1). -/
def pySlice {α : Type} (xs : List α) (start stop : Int) : List α :=
  (xs.take (pyIdx xs.length stop)).drop (pyIdx xs.length start)

/-- Flask's `request.args.get("page", 1, type=int)`: the parsed `page` query parameter,
defaulting to `1` when absent (Flask also falls back to the default when the
parameter does not parse as an integer). -/
def pageArg : Option Int → Int
  | none => 1
  | some p => p

/-- The helper `paginate_items` from `backend/decorators/paginate.py`: formats the
selection and returns the slice `[(page-1)*10 : page*10]` of the formatted
items, with Python slice semantics. -/
def paginate_items {α β : Type} (format : α → β) (page : Int)
    (selection : List α) : List β :=
  let start : Int := (page - 1) * ITEMS_PER_PAGE
  let stop : Int := start + ITEMS_PER_PAGE
  pySlice (selection.map format) start stop

/-! ### SQL pattern matching used by the search path -/

/-- SQL `LIKE` pattern matching over characters: `%` matches any sequence (the
rest of the pattern must match some suffix of the text), `_` matches any single
character, every other pattern character matches itself. -/
def likeMatch : List Char → List Char → Bool
  | [], s => s.isEmpty
  | p :: ps, s =>
    if p = '%' then
      s.tails.any (fun t => likeMatch ps t)
    else
      match s with
      | [] => false
      | c :: s2 => (if p = '_' then true else p == c) && likeMatch ps s2

/-- The characters of a string, lowercased. -/
def lowerChars (s : String) : List Char := s.data.map Char.toLower

/-- SQL `ILIKE`: case-insensitive `LIKE`, as used by
`Question.question.ilike(...)`. -/
def sqlILike (pattern text : String) : Bool :=
  likeMatch (lowerChars pattern) (lowerChars text)

/-! ### The route handlers of `backend/flaskr/__init__.py`

Each handler takes the store and returns the store left behind together with
the HTTP response, so that the state effect of every endpoint is explicit. -/

/-- Handler for `GET /categories` (`get_categories`). -/
def get_categories (s : Store) : Store × HttpResponse :=
  let categories := s.categoriesById
  let formatted_categories := categories.map Category.format
  (s, okResponse [("success", .jBool true),
                  ("categories", .jArr formatted_categories)])

/-- Handler for `GET /questions` (`get_questions`); `page` is the parsed `page`
query parameter. The source returns directly after paginating: there is no
check for an empty page. -/
def get_questions (page : Int) (s : Store) : Store × HttpResponse :=
  let questions := s.questionsById
  let current_questions := paginate_items Question.format page questions
  let categories := s.categoriesById
  let formatted_categories := categories.map Category.format
  (s, okResponse [("success", .jBool true),
                  ("questions", .jArr current_questions),
                  ("total_questions", .jNum questions.length),
                  ("categories", .jArr formatted_categories)])

/-- The body of `delete_question`'s `try` block. `error` is any raised
exception — including the `abort(404)` executed when the row is absent, which
is raised inside the `try` block. -/
def delete_question_try (question_id : Nat) (s : Store) :
    Except Unit (Store × HttpResponse) := do
  let question ← one_or_none (s.filterQuestions (fun q => q.id == question_id))
  match question with
  | none => .error ()
  | some _ =>
    let s2 := s.deleteQuestion question_id
    .ok (s2, okResponse [("success", .jBool true),
                         ("deleted", .jNum question_id)])

/-- Handler for `DELETE /questions/<int:question_id>` (`delete_question`). The bare
`except:` catches every exception raised in the `try` block — the `abort(404)`
included — and answers `abort(422)`. -/
def delete_question (question_id : Nat) (s : Store) : Store × HttpResponse :=
  match delete_question_try question_id s with
  | .ok r => r
  | .error _ => (s, errorResponse 422)

/-- The JSON body of `POST /questions`, as read with `body.get(...)`: each
field is `none` when absent (or JSON `null`); the four creation fields carry
the types the data model gives them. -/
structure QuestionPost where
  search_term : Option String
  question : Option String
  answer : Option String
  difficulty : Option Nat
  category : Option Nat

/-- Python truthiness of `body.get('search_term')`: present and non-empty. -/
def searchTermTruthy : Option String → Bool
  | none => false
  | some t => !(t == "")

/-- The body of `create_question`'s `try` block. On the search path a miss
raises `abort(Response(..., 404))` — inside the `try` block; on the creation
path a missing field raises `abort(422)`. -/
def create_question_try (body : QuestionPost) (page : Int) (s : Store) :
    Except Unit (Store × HttpResponse) :=
  if searchTermTruthy body.search_term then
    let search_term := body.search_term.getD ""
    let filtered_questions :=
      s.filterQuestions (fun q => sqlILike ("%" ++ search_term ++ "%") q.question)
    if filtered_questions.length = 0 then
      .error ()
    else
      let paginated_results := paginate_items Question.format page filtered_questions
      .ok (s, okResponse [("success", .jBool true),
                          ("questions", .jArr paginated_results),
                          ("total_questions", .jNum filtered_questions.length)])
  else
    match body.question, body.answer, body.difficulty, body.category with
    | some new_question, some new_answer, some new_difficulty, some new_category =>
      let inserted := s.insertQuestion new_question new_answer new_category new_difficulty
      let s2 := inserted.1
      let all_questions := s2.questionsById
      let paginated_questions := paginate_items Question.format page all_questions
      .ok (s2, okResponse [("success", .jBool true),
                           ("questions", .jArr paginated_questions),
                           ("total_questions", .jNum all_questions.length),
                           ("created", .jNum inserted.2)])
    | _, _, _, _ => .error ()

/-- Handler for `POST /questions` (`create_question`: search and creation paths).
The bare `except:` maps every exception to `abort(422)`. -/
def create_question (body : QuestionPost) (page : Int) (s : Store) :
    Store × HttpResponse :=
  match create_question_try body page s with
  | .ok r => r
  | .error _ => (s, errorResponse 422)

/-- The function `get_questions_by_category` as defined in the source (it has
no surrounding `try`; a `one_or_none` exception would be an unhandled error,
and no 500 handler is registered). Whether the app routes any request to it is
a separate question, settled by `registeredRoutes` below. -/
def get_questions_by_category (category_id : Nat) (page : Int) (s : Store) :
    Store × HttpResponse :=
  match one_or_none (s.categories.filter (fun c => c.id == category_id)) with
  | .error _ => (s, ⟨500, .jNull⟩)
  | .ok none => (s, errorResponse 404)
  | .ok (some selected_category) =>
    let categorized_questions :=
      s.filterQuestions (fun q => q.category == category_id)
    let paginated_questions := paginate_items Question.format page categorized_questions
    (s, okResponse [("success", .jBool true),
                    ("questions", .jArr paginated_questions),
                    ("total_questions", .jNum categorized_questions.length),
                    ("current_category", .jStr selected_category.type)])

/-! ### The quiz endpoint

`get_random_questions` manipulates the parsed JSON body with dynamically typed
Python operations, so the body is embedded as a Python value. -/

/-- Python values reachable from a parsed JSON body (booleans are unused by the
routes modelled here). -/
inductive PyVal where
  | pyNone
  | pyInt (n : Int)
  | pyStr (s : String)
  | pyList (xs : List PyVal)
  | pyDict (fields : List (String × PyVal))

mutual

/-- JSON serialisation (`jsonify`) of a Python value. -/
def pyToJson : PyVal → JVal
  | .pyNone => .jNull
  | .pyInt n => .jNum n
  | .pyStr t => .jStr t
  | .pyList xs => .jArr (pyListToJson xs)
  | .pyDict fs => .jObj (pyFieldsToJson fs)

/-- JSON serialisation of a Python list. -/
def pyListToJson : List PyVal → List JVal
  | [] => []
  | x :: xs => pyToJson x :: pyListToJson xs

/-- JSON serialisation of a Python dict. -/
def pyFieldsToJson : List (String × PyVal) → List (String × JVal)
  | [] => []
  | (k, v) :: fs => (k, pyToJson v) :: pyFieldsToJson fs

end

/-- Python `v is None`. -/
def pyIsNone : PyVal → Bool
  | .pyNone => true
  | _ => false

/-- Python `body.get(k)`: `None` for a missing key; raises (`error`) when the receiver
is not a dict (`request.get_json()` may yield any JSON value). -/
def pyGet : PyVal → String → Except Unit PyVal
  | .pyDict fs, k => .ok ((fs.lookup k).getD .pyNone)
  | _, _ => .error ()

/-- Python subscription `v[k]`: raises unless the receiver is a dict holding the
key (`KeyError` / `TypeError`). -/
def pyGetItem : PyVal → String → Except Unit PyVal
  | .pyDict fs, k =>
    match fs.lookup k with
    | some v => .ok v
    | none => .error ()
  | _, _ => .error ()

/-- Python `category['id'] == 0`: `==` against a non-integer is `False`, never
an exception. -/
def pyEqZero : PyVal → Bool
  | .pyInt n => n == 0
  | _ => false

/-- The SQL comparison `Question.category == category['id']` against the JSON
value: true exactly for the equal integer. -/
def pyEqNat : PyVal → Nat → Bool
  | .pyInt n, m => n == (m : Int)
  | _, _ => false

/-- Python `x in s` where `s` is a `str`: a substring test when `x` is itself a
`str`, a raised `TypeError` for any other operand. -/
def pyInStr : PyVal → String → Except Unit Bool
  | .pyStr t, s => .ok (decide (t.data <:+: s.data))
  | _, _ => .error ()

/-- The body of `get_random_questions`'s `try` block, from the source. The view
function takes two parameters `quiz_category` and `previous_qns` of its own
(the `/quizzes` rule has no URL arguments that could bind them); the body uses
them as the *keys* looked up in the JSON body, and the `while` condition tests
`next_random_question.id not in previous_qns` against the string parameter
`previous_qns` itself — not against the list read from the body. `rand` stands
for the value drawn by `random.randint(0, len(questions) - 1)`, which raises
`ValueError` when the pool is empty. When the `while` condition is false the
loop body never runs and the function returns `None`, which Flask reports as an
unhandled 500 (no JSON envelope). -/
def get_random_questions_try (quiz_category previous_qns : String)
    (body : PyVal) (rand : Nat) (s : Store) :
    Except Unit (Store × HttpResponse) :=
  match pyGet body previous_qns with
  | .error e => .error e
  | .ok previous_questions =>
    match pyGet body quiz_category with
    | .error e => .error e
    | .ok category =>
      if pyIsNone category || pyIsNone previous_questions then
        .error ()
      else
        match pyGetItem category "id" with
        | .error e => .error e
        | .ok cid =>
          let questions :=
            if pyEqZero cid then s.questionsById
            else s.filterQuestions (fun q => pyEqNat cid q.category)
          if h : questions.length = 0 then
            .error ()
          else
            let next_random_question :=
              questions.get ⟨rand % questions.length,
                             Nat.mod_lt _ (Nat.pos_of_ne_zero h)⟩
            match pyInStr (.pyInt next_random_question.id) previous_qns with
            | .error e => .error e
            | .ok isMember =>
              if !isMember then
                .ok (s, okResponse [("success", .jBool true),
                      ("question", .jObj [("id", .jNum next_random_question.id),
                         ("question", .jStr next_random_question.question),
                         ("category", .jNum next_random_question.category),
                         ("difficulty", .jNum next_random_question.difficulty),
                         ("answer", .jStr next_random_question.answer)]),
                      ("previous_questions", pyToJson previous_questions)])
              else
                .ok (s, ⟨500, .jNull⟩)

/-- The view *body* of `get_random_questions`, taken with its two parameters
bound to strings: the bare `except:` maps every exception raised in the `try`
block — the `abort(400)` for missing fields included — to `abort(422)`. Flask's
dispatch of the parameterless `/quizzes` rule can never bind the two
parameters, so no request reaches this body; the endpoint's observable
behavior is `quizzes_endpoint` below. -/
def get_random_questions (quiz_category previous_qns : String) (body : PyVal)
    (rand : Nat) (s : Store) : Store × HttpResponse :=
  match get_random_questions_try quiz_category previous_qns body rand s with
  | .ok r => r
  | .error _ => (s, errorResponse 422)

/-! ### Route registration -/

/-- The HTTP methods used by the app. -/
inductive Method
  | get
  | post
  | delete
  deriving DecidableEq, Repr

/-- A segment of a Flask URL rule: a literal, or an `<int:...>` converter. -/
inductive RouteSeg
  | lit (s : String)
  | intArg
  deriving DecidableEq, Repr

/-- The URL rules registered with `@app.route(...)` in `create_app`, in source
order. The call `app.route('/categories/<int:category_id>/questions')` on line
172 is not used as a decorator (there is no `@` and the result is discarded),
so no rule is registered for `get_questions_by_category`. -/
def registeredRoutes : List (Method × List RouteSeg) :=
  [ (.get, [.lit "categories"]),
    (.get, [.lit "questions"]),
    (.delete, [.lit "questions", .intArg]),
    (.post, [.lit "questions"]),
    (.post, [.lit "quizzes"]) ]

/-- Does a URL rule segment match a path segment? The `int` converter accepts
non-empty digit strings. -/
def RouteSeg.matches : RouteSeg → String → Bool
  | .lit s, seg => s == seg
  | .intArg, seg => !(seg == "") && seg.data.all Char.isDigit

/-- Does the app have a registered rule matching the request line? A request
matching no rule gets Flask's 404 handling — here the registered 404 handler's
envelope. -/
def hasRoute (m : Method) (path : List String) : Bool :=
  registeredRoutes.any (fun r =>
    decide (r.1 = m) && r.2.length == path.length &&
      (r.2.zip path).all (fun pr => pr.1.matches pr.2))

/-- Does a rule segment bind a URL argument (a converter)? -/
def RouteSeg.isArg : RouteSeg → Bool
  | .lit _ => false
  | .intArg => true

/-- The URL arguments a matched rule binds at dispatch: the path text of each
converter segment, in order. The `/quizzes` pattern is a single literal, so it
binds none. -/
def urlArgsOf (pattern : List RouteSeg) (path : List String) : List String :=
  ((pattern.zip path).filter (fun pr => pr.1.isArg)).map (fun pr => pr.2)

/-- Werkzeug's answer for an exception no registered error handler covers:
status 500 with the default HTML error page — only 400, 404 and 422 handlers
are registered, none for 500 or `TypeError`. `jNull` stands for the non-JSON
body. -/
def internalServerError : HttpResponse := ⟨500, .jNull⟩

/-- Dispatch of `POST /quizzes`: Flask calls the view with exactly the URL
arguments the matched rule binds — none, since the `/quizzes` pattern has no
converter — while the `def` line of `get_random_questions` demands the two
positional parameters `quiz_category` and `previous_qns`. Only an argument
list binding both could enter the view body; with the empty list the call
itself raises `TypeError` in the dispatcher's frame, before the `try` block
and its bare `except:` can run, and werkzeug answers its default 500 page. -/
def quizzes_endpoint (body : PyVal) (rand : Nat) (s : Store) :
    Store × HttpResponse :=
  match urlArgsOf [RouteSeg.lit "quizzes"] ["quizzes"] with
  | [quiz_category, previous_qns] =>
    get_random_questions quiz_category previous_qns body rand s
  | _ => (s, internalServerError)

/-! ### Definitions taken from the specification's words, for comparison -/

/-- The mapping-form categories payload that the spec states as the intended
contract (an object keyed by the category id). Stated from the spec's words,
to be compared with what `get_categories` actually builds. -/
def categoriesMappingSpec (cats : List Category) : JVal :=
  .jObj (cats.map (fun c => (toString c.id, .jStr c.type)))

/-- Case-insensitive substring containment — the spec's description of the
search operation. -/
def containsCI (needle hay : String) : Prop :=
  lowerChars needle <:+: lowerChars hay

instance (needle hay : String) : Decidable (containsCI needle hay) :=
  List.decidableInfix _ _

/-- The search term uses no `LIKE` metacharacters. -/
def noWildcards (t : String) : Prop :=
  ∀ c ∈ lowerChars t, c ≠ '%' ∧ c ≠ '_'

instance (t : String) : Decidable (noWildcards t) :=
  List.decidableBAll _ _

instance : IsTotal Category (fun a b => a.id ≤ b.id) :=
  ⟨fun a b => Nat.le_total a.id b.id⟩

instance : IsTrans Category (fun a b => a.id ≤ b.id) :=
  ⟨fun _ _ _ hab hbc => Nat.le_trans hab hbc⟩

/-! ### Concrete stores and request bodies used by the proofs -/

/-- A store with three questions (one page) and one category. -/
def C2store : Store :=
  ⟨[⟨1, "Science"⟩],
   [⟨1, "q1", "a1", 1, 1⟩, ⟨2, "q2", "a2", 1, 2⟩, ⟨3, "q3", "a3", 1, 3⟩], 4⟩

/-- A store holding the category `1 = "Science"` and one question in it. -/
def C3store : Store := ⟨[⟨1, "Science"⟩], [⟨5, "q", "a", 1, 1⟩], 6⟩

/-- A store with questions `1` and `2` only. -/
def C4store : Store := ⟨[], [⟨1, "q1", "a1", 1, 1⟩, ⟨2, "q2", "a2", 1, 2⟩], 3⟩

/-- A store whose category table is not already in id order. -/
def C5store : Store := ⟨[⟨2, "Art"⟩, ⟨1, "Science"⟩], [], 1⟩

/-- A one-question store for the creation witness. -/
def C7store : Store := ⟨[⟨1, "Science"⟩], [⟨1, "q1", "a1", 1, 1⟩], 2⟩

/-- The creation body `{question, answer, difficulty, category}` used by the
C7 witness. -/
def C7body : QuestionPost := ⟨none, some "new q", some "new a", some 5, some 1⟩

/-- A two-question store for exercising deletion. -/
def C8store : Store := ⟨[], [⟨1, "q1", "a1", 1, 1⟩, ⟨2, "q2", "a2", 1, 2⟩], 3⟩

/-- The store for the C9 counterexample. -/
def C9store : Store := ⟨[], [⟨1, "What is 100 plus 1", "101", 1, 1⟩], 2⟩

/-- The search body of the C9 counterexample: the term `100%` carries a `LIKE`
metacharacter. -/
def C9body : QuestionPost := ⟨some "100%", none, none, none, none⟩

/-- The store for the C9 witness: exactly one question mentions a lake. -/
def C9wStore : Store :=
  ⟨[], [⟨10, "What is the largest lake in Africa?", "Lake Victoria", 3, 2⟩,
        ⟨11, "La Giaconda is better known as what?", "Mona Lisa", 2, 3⟩], 12⟩

/-- The search body of the C9 witness. -/
def C9wBody : QuestionPost := ⟨some "LAKE", none, none, none, none⟩

/-! ### Helper lemmas -/

/-- A Python slice `l[a : a+10]` with a non-negative start is the mathematical
window: drop `a`, take `10`. -/
lemma pySlice_nonneg {α : Type} (l : List α) (a : Nat) :
    pySlice l (a : Int) ((a : Int) + 10) = (l.drop a).take 10 := by
  unfold pySlice pyIdx
  have h1 : ¬ ((a : Int) < 0) := by omega
  have h2 : ¬ ((a : Int) + 10 < 0) := by omega
  have ha : ((a : Int)).toNat = a := by omega
  have hb : ((a : Int) + 10).toNat = a + 10 := by omega
  rw [if_neg h1, if_neg h2, ha, hb]
  rcases le_or_lt l.length a with h | h
  · rw [Nat.min_eq_right h, Nat.min_eq_right (by omega),
        List.take_length, List.drop_eq_nil_of_le h,
        List.drop_eq_nil_of_le (Nat.le_refl _)]
    rfl
  · rw [Nat.min_eq_left (Nat.le_of_lt h), List.take_drop]
    rcases le_or_lt (a + 10) l.length with h10 | h10
    · rw [Nat.min_eq_left h10]
    · rw [Nat.min_eq_right (Nat.le_of_lt h10), List.take_length,
          List.take_of_length_le (Nat.le_of_lt h10)]

/-- For a page number `p ≥ 1`, `paginate_items` is the mathematical slice
`[(p-1)*10 : p*10]` of the formatted items. -/
lemma paginate_items_of_pos {α β : Type} (format : α → β) (p : Int)
    (xs : List α) (hp : 1 ≤ p) :
    paginate_items format p xs =
      ((xs.map format).drop (((p - 1) * 10).toNat)).take 10 := by
  unfold paginate_items ITEMS_PER_PAGE
  obtain ⟨a, ha⟩ : ∃ a : Nat, ((p - 1) * 10 : Int) = a :=
    ⟨((p - 1) * 10).toNat, by omega⟩
  have hnat : ((p - 1) * 10).toNat = a := by omega
  rw [show ((p - 1) * ((10 : Nat) : Int)) = (a : Int) from by omega, hnat]
  exact pySlice_nonneg _ a

/-- Filtering by an id held by no element of the list gives the empty list. -/
lemma filter_id_eq_nil {l : List Question} {qid : Nat}
    (h : ∀ q ∈ l, q.id ≠ qid) :
    l.filter (fun q => q.id == qid) = [] := by
  rw [List.filter_eq_nil_iff]
  intro q hq
  simpa using h q hq

/-- Under unique ids, `filter` by the id of a member returns exactly that
member. -/
lemma filter_id_eq_singleton {l : List Question} {q : Question} {qid : Nat}
    (hnd : (l.map Question.id).Nodup) (hmem : q ∈ l) (hid : q.id = qid) :
    l.filter (fun x => x.id == qid) = [q] := by
  induction l with
  | nil => cases hmem
  | cons x t ih =>
    rw [List.map_cons, List.nodup_cons] at hnd
    rcases List.mem_cons.mp hmem with rfl | hmt
    · have ht : t.filter (fun x => x.id == qid) = [] := by
        refine filter_id_eq_nil fun y hy hcontra => ?_
        exact hnd.1 (hid ▸ hcontra ▸ List.mem_map_of_mem Question.id hy)
      simp [List.filter_cons, hid, ht]
    · have hx : x.id ≠ qid := by
        intro hcontra
        exact hnd.1 (hcontra ▸ hid ▸ List.mem_map_of_mem Question.id hmt)
      simp only [List.filter_cons, beq_iff_eq, if_neg hx]
      exact ih hnd.2 hmt

/-- Under unique ids, no row with the erased id survives `eraseP`. -/
lemma filter_eraseP_id {l : List Question} {qid : Nat}
    (hnd : (l.map Question.id).Nodup) :
    (l.eraseP (fun q => q.id == qid)).filter (fun q => q.id == qid) = [] := by
  induction l with
  | nil => rfl
  | cons x t ih =>
    rw [List.map_cons, List.nodup_cons] at hnd
    by_cases hx : x.id = qid
    · rw [List.eraseP_cons_of_pos (by simpa using hx)]
      refine filter_id_eq_nil fun y hy hcontra => ?_
      exact hnd.1 (hx ▸ hcontra ▸ List.mem_map_of_mem Question.id hy)
    · rw [List.eraseP_cons_of_neg (by simpa using hx)]
      simp only [List.filter_cons, beq_iff_eq, if_neg hx]
      exact ih hnd.2

/-! ### C10 — GET handlers are read-only -/

/-- C10: every GET handler (list categories, list questions, questions by
category) leaves the store — hence the set of stored Question rows and the set
of stored Category rows — exactly as it was. -/
theorem get_handlers_read_only :
    (∀ s, (get_categories s).1 = s) ∧
    (∀ page s, (get_questions page s).1 = s) ∧
    (∀ category_id page s, (get_questions_by_category category_id page s).1 = s) := by
  refine ⟨fun s => rfl, fun page s => rfl, fun category_id page s => ?_⟩
  unfold get_questions_by_category
  split <;> rfl

/-! ### C2 — `GET /questions` on an empty page -/

/-- C2: contrary to the claim (and to the repository's own test
`test_404_request_beyond_valid_page`, which expects 404 "resource not found"),
`get_questions` performs no empty-page check: every request — the failing input
`page=55555` on a three-question store included — is answered 200, with an
empty `questions` list on out-of-range pages. -/
theorem get_questions_beyond_last_page_returns_200 :
    (∀ page s, (get_questions page s).2.status = 200) ∧
    (get_questions 55555 C2store).2 =
      okResponse [("success", .jBool true),
                  ("questions", .jArr []),
                  ("total_questions", .jNum 3),
                  ("categories", .jArr [Category.format ⟨1, "Science"⟩])] ∧
    (get_questions 55555 C2store).2.status ≠ 404 := by
  refine ⟨fun page s => rfl, rfl, by decide⟩

/-! ### C3 — `GET /categories/<id>/questions` is never routed -/

/-- C3: the claim fails at the routing layer — the route call on line 172 is
not a decorator, so no rule matches `GET /categories/1/questions` (while all
five decorated rules are registered), and Flask answers 404 for every such
request, existing category or not. The orphaned handler itself would have
answered 200 with `current_category = "Science"`. -/
theorem categories_questions_route_not_registered :
    hasRoute .get ["categories", "1", "questions"] = false ∧
    hasRoute .get ["categories"] = true ∧
    hasRoute .get ["questions"] = true ∧
    hasRoute .delete ["questions", "5"] = true ∧
    hasRoute .post ["questions"] = true ∧
    hasRoute .post ["quizzes"] = true ∧
    (get_questions_by_category 1 1 C3store).2.status = 200 ∧
    (get_questions_by_category 1 1 C3store).2.body.getField "current_category" =
      some (.jStr "Science") :=
  ⟨rfl, rfl, rfl, rfl, rfl, rfl, rfl, rfl⟩

/-! ### C4 — deleting a missing question -/

/-- C4 counterexample: deleting the absent id `100` answers 422, not the 404
stated by the claim — the `abort(404)` is raised inside the `try` block and the
bare `except:` downgrades it to `abort(422)`. -/
theorem delete_missing_is_422_not_404 :
    (delete_question 100 C4store).2 = errorResponse 422 ∧
    (delete_question 100 C4store).2.status ≠ 404 :=
  ⟨rfl, by decide⟩

/-- C4 (amended): a `DELETE /questions/<id>` request for an id no stored
question has fails with Unprocessable (422) — not NotFound — because the
`abort(404)` raised inside the `try` block is caught by the bare `except:`;
any other failure during lookup or delete takes the same `except:` path. -/
theorem delete_missing_unprocessable (question_id : Nat) (s : Store)
    (h : ∀ q ∈ s.questions, q.id ≠ question_id) :
    delete_question question_id s = (s, errorResponse 422) := by
  unfold delete_question delete_question_try
  have hfil : s.filterQuestions (fun q => q.id == question_id) = [] :=
    filter_id_eq_nil h
  rw [hfil]
  rfl

/-- Witness for the amended C4 theorem at the concrete store `C4store` and the
absent id `7`. -/
theorem delete_missing_unprocessable_witness :
    (∀ q ∈ C4store.questions, q.id ≠ 7) ∧
    delete_question 7 C4store = (C4store, errorResponse 422) :=
  ⟨by decide, delete_missing_unprocessable 7 C4store (by decide)⟩

/-! ### C5 — `GET /categories` response shape -/

/-- C5 counterexample: on `C5store` the `categories` payload is the *list*
`[{id: 1, type: "Science"}, {id: 2, type: "Art"}]` of objects, not the
id-to-type mapping the claim states. -/
theorem get_categories_not_mapping :
    (get_categories C5store).2.body.getField "categories" =
      some (.jArr [Category.format ⟨1, "Science"⟩, Category.format ⟨2, "Art"⟩]) ∧
    (get_categories C5store).2.body.getField "categories" ≠
      some (categoriesMappingSpec [⟨1, "Science"⟩, ⟨2, "Art"⟩]) := by
  refine ⟨rfl, fun h => ?_⟩
  have h2 : categoriesMappingSpec [⟨1, "Science"⟩, ⟨2, "Art"⟩] =
      .jObj [("1", .jStr "Science"), ("2", .jStr "Art")] := rfl
  rw [h2] at h
  have h3 : (JVal.jArr [Category.format ⟨1, "Science"⟩, Category.format ⟨2, "Art"⟩]) =
      .jObj [("1", .jStr "Science"), ("2", .jStr "Art")] := Option.some.inj h
  exact JVal.noConfusion h3

/-- C5 (amended): `GET /categories` returns `{success, categories}` where the
categories payload is the *list* of `{id, type}` objects built by the source
(not a mapping), holding exactly the stored categories in ascending id
order. -/
theorem get_categories_sorted_list (s : Store) :
    ∃ cats : List Category,
      (get_categories s).2 =
        okResponse [("success", .jBool true),
                    ("categories", .jArr (cats.map Category.format))] ∧
      cats.Perm s.categories ∧
      List.Sorted (fun a b => a.id ≤ b.id) cats :=
  ⟨s.categoriesById, rfl, List.perm_insertionSort _ _,
   List.sorted_insertionSort _ _⟩

/-! ### C6 — the pagination contract -/

/-- C6 counterexample: the claim demands an empty slice for every out-of-range
page, `p ≤ 0` included, but page `-1` on a 25-item list returns ten items —
Python resolves negative slice indices from the end of the list. -/
theorem paginate_negative_page_nonempty :
    paginate_items (fun n : Nat => n) (-1) (List.range 25) =
      [5, 6, 7, 8, 9, 10, 11, 12, 13, 14] ∧
    paginate_items (fun n : Nat => n) (-1) (List.range 25) ≠ [] :=
  ⟨by decide, by decide⟩

/-- C6 (amended): for every requested page `p ≥ 1` (with `1` the default when
the parameter is absent) `paginate_items` returns exactly the slice
`[(p-1)*10 : p*10]` of the formatted items — hence at most 10 items, `min 10
total` of them on page 1, and an empty slice beyond the last populated page —
and page `0` also yields the empty slice; pages `p < 0`, however, follow
Python's negative slice indexing (counting from the end of the list) and can be
non-empty. -/
theorem paginate_items_contract {α β : Type} (format : α → β) (p : Int)
    (xs : List α) (hp : 1 ≤ p) :
    paginate_items format p xs =
      ((xs.map format).drop (((p - 1) * 10).toNat)).take 10 ∧
    (paginate_items format p xs).length ≤ 10 ∧
    (p = 1 → (paginate_items format p xs).length = min 10 xs.length) ∧
    ((xs.length : Int) ≤ (p - 1) * 10 → paginate_items format p xs = []) ∧
    paginate_items format 0 xs = [] ∧
    pageArg none = 1 := by
  have heq := paginate_items_of_pos format p xs hp
  refine ⟨heq, ?_, ?_, ?_, ?_, rfl⟩
  · rw [heq]; exact List.length_take_le _ _
  · intro hp1
    subst hp1
    rw [heq]
    norm_num [List.length_take, List.length_map]
  · intro hout
    rw [heq]
    have hlen : (xs.map format).length ≤ ((p - 1) * 10).toNat := by
      rw [List.length_map]; omega
    rw [List.drop_eq_nil_of_le hlen]
    rfl
  · unfold paginate_items pySlice pyIdx ITEMS_PER_PAGE
    norm_num

/-- Witness for the amended C6 theorem: page 2 of a 25-item list. -/
theorem paginate_items_contract_witness :
    (1 : Int) ≤ 2 ∧
    paginate_items (fun n : Nat => n) 2 (List.range 25) =
      (((List.range 25).map (fun n : Nat => n)).drop ((((2 : Int) - 1) * 10).toNat)).take 10 :=
  ⟨by decide,
   (paginate_items_contract (fun n : Nat => n) 2 (List.range 25) (by decide)).1⟩

/-! ### C8 — delete semantics -/

/-- C8: under the spec's unique-id invariant, deleting an existing question
removes exactly that row — the count drops by one and the id is no longer
found — and answers `{success, deleted: id}`; deleting a missing id leaves the
store unchanged and answers status 422. -/
theorem delete_question_contract (question_id : Nat) (s : Store)
    (hnd : (s.questions.map Question.id).Nodup) :
    ((∃ q ∈ s.questions, q.id = question_id) →
      (delete_question question_id s).1.questions.length + 1 = s.questions.length ∧
      (delete_question question_id s).1.questions.filter
        (fun q => q.id == question_id) = [] ∧
      (delete_question question_id s).2 =
        okResponse [("success", .jBool true), ("deleted", .jNum question_id)]) ∧
    ((∀ q ∈ s.questions, q.id ≠ question_id) →
      (delete_question question_id s).1 = s ∧
      (delete_question question_id s).2 = errorResponse 422) := by
  constructor
  · rintro ⟨q, hq, hid⟩
    have hfil : s.filterQuestions (fun x => x.id == question_id) = [q] :=
      filter_id_eq_singleton hnd hq hid
    have hrun : delete_question question_id s =
        (s.deleteQuestion question_id,
         okResponse [("success", .jBool true), ("deleted", .jNum question_id)]) := by
      unfold delete_question delete_question_try
      rw [hfil]
      rfl
    rw [hrun]
    refine ⟨?_, filter_eraseP_id hnd, rfl⟩
    have hlen : (s.questions.eraseP (fun x => x.id == question_id)).length =
        s.questions.length - 1 :=
      List.length_eraseP_of_mem hq (by simpa using hid)
    have hpos := List.length_pos_of_mem hq
    show (s.questions.eraseP (fun x => x.id == question_id)).length + 1 =
      s.questions.length
    omega
  · intro h
    have hres : delete_question question_id s = (s, errorResponse 422) := by
      unfold delete_question delete_question_try
      have hfil : s.filterQuestions (fun x => x.id == question_id) = [] :=
        filter_id_eq_nil h
      rw [hfil]
      rfl
    rw [hres]
    exact ⟨rfl, rfl⟩

/-- Witness for C8 at the concrete store `C8store`, deleting question `1`. -/
theorem delete_question_contract_witness :
    (C8store.questions.map Question.id).Nodup ∧
    (delete_question 1 C8store).1.questions.length + 1 =
      C8store.questions.length ∧
    (delete_question 1 C8store).2 =
      okResponse [("success", .jBool true), ("deleted", .jNum 1)] := by
  have h := (delete_question_contract 1 C8store (by decide)).1
    ⟨⟨1, "q1", "a1", 1, 1⟩, by decide, rfl⟩
  exact ⟨by decide, h.1, h.2.2⟩

/-! ### C7 — creating a question -/

/-- C7: for a `POST /questions` body without a truthy search term: if any of
the four creation fields is missing the handler answers 422 with the store
untouched; if all four are present a new row with the store's next id is
inserted — the count grows by exactly one, the new id is subsequently
retrievable and is returned as `created` — together with the full paginated
question list. -/
theorem create_question_contract (body : QuestionPost) (page : Int) (s : Store)
    (hwf : Store.WF s) (hterm : searchTermTruthy body.search_term = false) :
    ((body.question = none ∨ body.answer = none ∨ body.difficulty = none ∨
        body.category = none) →
      create_question body page s = (s, errorResponse 422)) ∧
    (∀ qtext ans diff cat, body.question = some qtext → body.answer = some ans →
      body.difficulty = some diff → body.category = some cat →
      (create_question body page s).1.questions.length = s.questions.length + 1 ∧
      (create_question body page s).1.questions.filter
        (fun q => q.id == s.nextId) = [⟨s.nextId, qtext, ans, cat, diff⟩] ∧
      (create_question body page s).2.status = 200 ∧
      (create_question body page s).2.body.getField "success" = some (.jBool true) ∧
      (create_question body page s).2.body.getField "created" =
        some (.jNum s.nextId) ∧
      (create_question body page s).2.body.getField "total_questions" =
        some (.jNum (s.questions.length + 1)) ∧
      (create_question body page s).2.body.getField "questions" =
        some (.jArr (paginate_items Question.format page
          (create_question body page s).1.questionsById))) := by
  constructor
  · intro hmiss
    unfold create_question create_question_try
    rw [hterm]
    rcases hq : body.question with _ | qv <;>
      rcases ha : body.answer with _ | av <;>
      rcases hd : body.difficulty with _ | dv <;>
      rcases hc : body.category with _ | cv <;>
      simp_all
  · intro qtext ans diff cat hq ha hd hc
    have hrun : create_question body page s =
        ({ s with questions := s.questions ++ [⟨s.nextId, qtext, ans, cat, diff⟩],
                  nextId := s.nextId + 1 },
         okResponse [("success", .jBool true),
           ("questions", .jArr (paginate_items Question.format page
             (Store.questionsById { s with
                questions := s.questions ++ [⟨s.nextId, qtext, ans, cat, diff⟩],
                nextId := s.nextId + 1 }))),
           ("total_questions", .jNum (Store.questionsById { s with
                questions := s.questions ++ [⟨s.nextId, qtext, ans, cat, diff⟩],
                nextId := s.nextId + 1 }).length),
           ("created", .jNum s.nextId)]) := by
      unfold create_question create_question_try Store.insertQuestion
      rw [hterm, hq, ha, hd, hc]
      rfl
    have hlen2 : (Store.questionsById { s with
        questions := s.questions ++ [⟨s.nextId, qtext, ans, cat, diff⟩],
        nextId := s.nextId + 1 }).length = s.questions.length + 1 := by
      unfold Store.questionsById
      rw [List.length_insertionSort, List.length_append]
      rfl
    refine ⟨?_, ?_, ?_, ?_, ?_, ?_, ?_⟩
    · rw [hrun]
      show (s.questions ++ [(⟨s.nextId, qtext, ans, cat, diff⟩ : Question)]).length =
        s.questions.length + 1
      rw [List.length_append]
      rfl
    · rw [hrun]
      have hnil : s.questions.filter (fun q => q.id == s.nextId) = [] :=
        filter_id_eq_nil (fun q hmem => Nat.ne_of_lt (hwf.2 q hmem))
      show (s.questions ++ [(⟨s.nextId, qtext, ans, cat, diff⟩ : Question)]).filter
          (fun q => q.id == s.nextId) = [⟨s.nextId, qtext, ans, cat, diff⟩]
      rw [List.filter_append, hnil]
      simp
    · rw [hrun]; rfl
    · rw [hrun]; rfl
    · rw [hrun]; rfl
    · rw [hrun, hlen2]; rfl
    · rw [hrun]; rfl

/-- Witness for C7 at the concrete store `C7store` and body `C7body`. -/
theorem create_question_contract_witness :
    Store.WF C7store ∧
    (create_question C7body 1 C7store).1.questions.length =
      C7store.questions.length + 1 ∧
    (create_question C7body 1 C7store).1.questions.filter
      (fun q => q.id == C7store.nextId) = [⟨C7store.nextId, "new q", "new a", 1, 5⟩] := by
  have h := (create_question_contract C7body 1 C7store ⟨by decide, by decide⟩
    rfl).2 "new q" "new a" 5 1 rfl rfl rfl rfl
  exact ⟨⟨by decide, by decide⟩, h.1, h.2.1⟩

/-! ### C1 — the quiz endpoint never returns a question -/

/-- Every run of the quiz handler's `try` block raises: a missing or non-dict
body raises on `.get`/`abort(400)`; an empty pool makes `random.randint(0, -1)`
raise `ValueError`; and otherwise the `while` condition tests the drawn
question's integer id with `in` against the *string* parameter `previous_qns`,
raising `TypeError`. -/
lemma get_random_questions_try_error (quiz_category previous_qns : String)
    (body : PyVal) (rand : Nat) (s : Store) :
    get_random_questions_try quiz_category previous_qns body rand s =
      .error () := by
  unfold get_random_questions_try
  cases body with
  | pyNone => rfl
  | pyInt n => rfl
  | pyStr t => rfl
  | pyList xs => rfl
  | pyDict fs =>
    split
    · rfl
    · split
      · rfl
      · split
        · rfl
        · split
          · rfl
          · dsimp only
            split
            · split
              · rfl
              · split
                · rfl
                · rename_i isMember heq
                  simp [pyInStr] at heq
            · split
              · rfl
              · split
                · rfl
                · rename_i isMember heq
                  simp [pyInStr] at heq

/-- C1: the quiz endpoint never returns a question — the claim already fails
at dispatch. The parameterless `/quizzes` rule binds no URL arguments, so
Flask's call of the two-parameter view raises `TypeError` before the `try`
block runs, and with no 500 or `TypeError` handler registered, every
`POST /quizzes` request is answered by werkzeug's default 500 page: never a
question, and not even the 422 envelope. The last conjunct adds that the view
body is broken on its own as well: under every binding of its dangling
parameters it could only answer 422 (its `while` condition tests the drawn
question's integer id with `in` against the string parameter `previous_qns`,
and every other path raises too), so fixing the rule alone would not satisfy
the claim either. -/
theorem quizzes_dispatch_type_error_500 (body : PyVal) (rand : Nat) (s : Store) :
    quizzes_endpoint body rand s = (s, internalServerError) ∧
    (quizzes_endpoint body rand s).2.status = 500 ∧
    (quizzes_endpoint body rand s).2.body.getField "question" = none ∧
    (∀ quiz_category previous_qns,
      get_random_questions quiz_category previous_qns body rand s =
        (s, errorResponse 422)) := by
  refine ⟨rfl, rfl, rfl, fun quiz_category previous_qns => ?_⟩
  unfold get_random_questions
  rw [get_random_questions_try_error]

/-! ### C9 — search is case-insensitive substring matching -/

/-- A leading `%` matches exactly when the pattern tail matches some suffix of
the text. -/
lemma likeMatch_percent_iff (ps s : List Char) :
    likeMatch ('%' :: ps) s = true ↔ ∃ t, t <:+ s ∧ likeMatch ps t = true := by
  simp only [likeMatch, if_true, List.any_eq_true]
  constructor
  · rintro ⟨t, ht, hm⟩
    exact ⟨t, (List.mem_tails t s).mp ht, hm⟩
  · rintro ⟨t, ht, hm⟩
    exact ⟨t, (List.mem_tails t s).mpr ht, hm⟩

/-- A wildcard-free pattern followed by a single `%` matches exactly the texts
it prefixes. -/
lemma likeMatch_append_percent (p : List Char)
    (hp : ∀ c ∈ p, c ≠ '%' ∧ c ≠ '_') (s : List Char) :
    likeMatch (p ++ ['%']) s = true ↔ p <+: s := by
  induction p generalizing s with
  | nil =>
    simp only [List.nil_append]
    constructor
    · intro _
      exact ⟨s, rfl⟩
    · intro _
      simp only [likeMatch, if_true, List.any_eq_true]
      exact ⟨[], (List.mem_tails _ _).mpr List.nil_suffix, rfl⟩
  | cons a p ih =>
    have ha := hp a (List.mem_cons_self a p)
    have hp2 : ∀ c ∈ p, c ≠ '%' ∧ c ≠ '_' :=
      fun c hc => hp c (List.mem_cons_of_mem a hc)
    cases s with
    | nil =>
      simp only [List.cons_append, likeMatch]
      rw [if_neg ha.1]
      simp
    | cons c s =>
      simp only [List.cons_append, likeMatch]
      rw [if_neg ha.1, if_neg ha.2]
      simp only [Bool.and_eq_true, beq_iff_eq, List.cons_prefix_cons,
        List.append_eq]
      rw [ih hp2]

/-- For a wildcard-free term, `ILIKE '%term%'` is exactly case-insensitive
substring containment. -/
lemma sqlILike_iff_containsCI (term text : String) (hw : noWildcards term) :
    sqlILike ("%" ++ term ++ "%") text = true ↔ containsCI term text := by
  have hdata : lowerChars ("%" ++ term ++ "%") =
      '%' :: (lowerChars term ++ ['%']) := by
    unfold lowerChars
    rw [String.data_append, String.data_append, List.map_append, List.map_append]
    rfl
  unfold sqlILike
  rw [hdata, likeMatch_percent_iff]
  unfold containsCI
  constructor
  · rintro ⟨t, ht, hm⟩
    exact List.infix_iff_prefix_suffix.mpr
      ⟨t, (likeMatch_append_percent _ hw t).mp hm, ht⟩
  · intro h
    obtain ⟨t, hpre, hsuf⟩ := List.infix_iff_prefix_suffix.mp h
    exact ⟨t, hsuf, (likeMatch_append_percent _ hw t).mpr hpre⟩

/-- C9 counterexample: searching for `100%` returns the stored question
`What is 100 plus 1` — the `%` acts as a wildcard in the interpolated `LIKE`
pattern — although `100%` is not a case-insensitive substring of that text, so
the result set is not the substring-match set the claim states. -/
theorem search_wildcard_not_substring :
    (create_question C9body 1 C9store).2 =
      okResponse [("success", .jBool true),
        ("questions", .jArr [Question.format ⟨1, "What is 100 plus 1", "101", 1, 1⟩]),
        ("total_questions", .jNum 1)] ∧
    ¬ containsCI "100%" "What is 100 plus 1" :=
  ⟨rfl, by decide⟩

/-- C9 (amended): for every `POST /questions` body carrying a non-empty search
term free of `LIKE` metacharacters (`%`, `_`), the match set computed by the
handler is exactly the stored questions whose text contains the term as a
case-insensitive substring: an empty match set is answered 422 (the
`abort(..., 404)` is swallowed by the bare `except:`), and otherwise the
response carries the paginated matches and `total_questions` equal to the match
count. -/
theorem search_matches_ci_substring (body : QuestionPost) (page : Int)
    (s : Store) (term : String) (hterm : body.search_term = some term)
    (hne : term ≠ "") (hw : noWildcards term) :
    (s.questions.filter (fun q => decide (containsCI term q.question)) = [] →
      create_question body page s = (s, errorResponse 422)) ∧
    (s.questions.filter (fun q => decide (containsCI term q.question)) ≠ [] →
      create_question body page s =
        (s, okResponse [("success", .jBool true),
          ("questions", .jArr (paginate_items Question.format page
            (s.questions.filter (fun q => decide (containsCI term q.question))))),
          ("total_questions", .jNum
            (s.questions.filter
              (fun q => decide (containsCI term q.question))).length)])) := by
  have htruthy : searchTermTruthy body.search_term = true := by
    rw [hterm]
    unfold searchTermTruthy
    simp [hne]
  have hfil : s.filterQuestions
      (fun q => sqlILike ("%" ++ body.search_term.getD "" ++ "%") q.question) =
      s.questions.filter (fun q => decide (containsCI term q.question)) := by
    unfold Store.filterQuestions
    rw [hterm]
    show s.questions.filter (fun q => sqlILike ("%" ++ term ++ "%") q.question) = _
    apply List.filter_congr
    intro q hq
    have h1 := sqlILike_iff_containsCI term q.question hw
    by_cases hc : containsCI term q.question
    · rw [h1.mpr hc, decide_eq_true hc]
    · have hfalse : sqlILike ("%" ++ term ++ "%") q.question = false := by
        cases hsql : sqlILike ("%" ++ term ++ "%") q.question
        · rfl
        · exact absurd (h1.mp hsql) hc
      rw [hfalse, decide_eq_false hc]
  constructor
  · intro hempty
    unfold create_question create_question_try
    rw [htruthy]
    dsimp only
    rw [hfil, hempty]
    rfl
  · intro hnonempty
    have hlen : ¬ ((s.questions.filter
        (fun q => decide (containsCI term q.question))).length = 0) := by
      simpa [List.length_eq_zero] using hnonempty
    unfold create_question create_question_try
    rw [htruthy]
    dsimp only
    rw [hfil, if_neg hlen]
    rfl

/-- Witness for the amended C9 theorem: searching `LAKE` over `C9wStore` finds
exactly one question. -/
theorem search_matches_ci_substring_witness :
    noWildcards "LAKE" ∧ "LAKE" ≠ "" ∧
    (create_question C9wBody 1 C9wStore).2.body.getField "total_questions" =
      some (.jNum 1) := by
  have h := (search_matches_ci_substring C9wBody 1 C9wStore "LAKE" rfl
    (by decide) (by decide)).2 (by decide)
  refine ⟨by decide, by decide, ?_⟩
  rw [h]
  rfl

end Trivia
